import Mathlib

/-!
Verification of the Megakernel path tracer core
(`Source/RenderPasses/PathTracer/Megakernel/PathTracer.slang`).

The shader's scalar type `float` is embedded as `ℚ` (exact arithmetic; the
claims below are about control flow and exact algebraic identities of the
code, not about rounding).  `float3`/`float4` become records of rationals.
Compile-time specialization constants (`kUseMIS`, `kMaxBounces`, ...) become
fields of a `Config` record so every theorem quantifies over all shader
configurations.  External collaborators (scene light sampling, BRDF sampling
and evaluation, environment probe, the MIS heuristic, the hardware `TraceRay`
dispatch) are fields of `PathTracerData`: arbitrary functions, so theorems
hold for every behavior of the collaborators.

A second model of `generateScatterRay` over an IEEE-style scalar domain `FV`
(with NaN and infinities) is given at the end, to reason about the function's
two `assert(!isnan(...))` postconditions.
-/

/-- Embedding of the HLSL `float3` vector type over exact rationals. -/
structure Float3 where
  x : ℚ
  y : ℚ
  z : ℚ
deriving DecidableEq, Repr

/-- Embedding of the HLSL `float4` vector type over exact rationals. -/
structure Float4 where
  x : ℚ
  y : ℚ
  z : ℚ
  w : ℚ
deriving DecidableEq, Repr

/-- The HLSL constructor `float4(v, s)` from a `float3` and a scalar. -/
def float4 (v : Float3) (s : ℚ) : Float4 :=
  ⟨v.x, v.y, v.z, s⟩

/-- The zero vector, `float3(0)`. -/
def Float3.zero : Float3 := ⟨0, 0, 0⟩

/-- Componentwise product, the HLSL `*` on `float3`. -/
instance : Mul Float3 where
  mul a b := ⟨a.x * b.x, a.y * b.y, a.z * b.z⟩

/-- Vector-times-scalar product, the HLSL `*` between `float3` and `float`. -/
instance : HMul Float3 ℚ Float3 where
  hMul v s := ⟨v.x * s, v.y * s, v.z * s⟩

/-- The HLSL intrinsic `dot` on `float3`. -/
def Float3.dot (a b : Float3) : ℚ :=
  a.x * b.x + a.y * b.y + a.z * b.z

/-- The HLSL reduction `any(v > 0.f)` on a `float3`. -/
def Float3.anyPos (v : Float3) : Bool :=
  decide (0 < v.x) || decide (0 < v.y) || decide (0 < v.z)

/-- The HLSL reduction `all(v == 0.f)` on a `float3`. -/
def Float3.allZero (v : Float3) : Bool :=
  decide (v.x = 0) && decide (v.y = 0) && decide (v.z = 0)

/-- The constant `M_PI` from `Utils/Math/MathConstants.slang`, as the literal
appearing in the source. -/
def M_PI : ℚ := 3.14159265358979323846

/-- Modelled from the spec: the per-path sample generator state
(`SampleGenerator`, imported from a module not present in the sources) is an
opaque random-sequence state; collaborators consume it and return a successor
state.  We embed it as a natural number token. -/
def SampleGenerator := ℕ
deriving DecidableEq, Repr

/-- Modelled from the spec: the triangle hit record (`TriangleHit`, defined in
a module not present in the sources) is opaque data handed to the emissive
sampler's pdf evaluation; we embed it as an opaque token. -/
def TriangleHit := ℕ
deriving DecidableEq, Repr

/-- The fields of `ShadingData` that the path tracer core reads: shading
normal `N`, view cosine `NdotV`, emitted radiance `emissive`, and the
collaborator-provided method `computeNewRayOrigin` (kept in
`PathTracerData` below since its code is external to this module). -/
structure ShadingData where
  N : Float3
  NdotV : ℚ
  emissive : Float3
deriving DecidableEq, Repr

/-- Modelled from the spec: the scatter-ray payload (`ScatterRayData`, defined
in `RenderPasses.PathTracer.Megakernel.RayData`, a module not present in the
sources).  Its fields are exactly those the core functions read and write:
origin, direction, throughput `thp`, emitted radiance `Le`, previous-bounce
pdf, previous-bounce shading normal, path length counter, pending shadow-ray
descriptor `shadowRay` with tentative contribution `Lr`, termination flag, and
the sample generator state `sg`. -/
structure ScatterRayData where
  origin : Float3
  direction : Float3
  thp : Float3
  Le : Float3
  pdf : ℚ
  normal : Float3
  pathLength : ℕ
  shadowRay : Float4
  Lr : Float3
  terminated : Bool
  sg : SampleGenerator
deriving DecidableEq, Repr

/-- Modelled from the spec: the shadow-ray payload — a single `visible`
boolean, initialized false, set true only by a miss response. -/
structure ShadowRayData where
  visible : Bool
deriving DecidableEq, Repr

/-- The result record of `sampleSceneLights`: sampled direction `dir` used for
BRDF evaluation, the shadow-ray direction `rayDir` and distance
`rayDistance`, and the incident radiance `Li`. -/
structure SceneLightSample where
  dir : Float3
  rayDir : Float3
  rayDistance : ℚ
  Li : Float3
deriving DecidableEq, Repr

/-- The result record of `sampleBRDF`: sampled direction, throughput
multiplier and pdf. -/
structure BRDFSample where
  dir : Float3
  thp : Float3
  pdf : ℚ
deriving DecidableEq, Repr

/-- The ray descriptor handed to the hardware `TraceRay` dispatch. -/
structure RayDesc where
  Origin : Float3
  Direction : Float3
  TMin : ℚ
  TMax : ℚ
deriving DecidableEq, Repr

/-- The static specialization constants of the shader.  In the source these
are compile-time `static const` defines; quantifying over this record makes
every theorem hold for every shader variant. -/
structure Config where
  kUseBRDFSampling : Bool
  kUseMIS : Bool
  kUseEnvLight : Bool
  kUseEmissiveLights : Bool
  kUseEmissiveSampler : Bool
  kMaxBounces : ℕ
  kMinCosTheta : ℚ
deriving DecidableEq, Repr

/-- The shared data block `PathTracerData` together with the external
collaborator functions the core calls through it (`sampleSceneLights`,
`evalBRDFCosine`, `sampleBRDF`, `evalBRDF`, `sampleHemisphereCosine`,
`sampleNext2D`, the environment probe, the emissive sampler's `evalPdf`, the
light-selection pdfs, the MIS heuristic `evalMIS`, and
`ShadingData::computeNewRayOrigin`).  All are opaque to this module, so they
are arbitrary function fields. -/
structure PathTracerData where
  sampleSceneLights : ShadingData → Float3 → SampleGenerator →
    SceneLightSample × SampleGenerator
  evalBRDFCosine : ShadingData → Float3 → Float3
  sampleBRDF : ShadingData → SampleGenerator → BRDFSample × SampleGenerator
  evalBRDF : ShadingData → Float3 → Float3
  sampleHemisphereCosine : ShadingData → ℚ × ℚ → Float3 × ℚ
  sampleNext2D : SampleGenerator → (ℚ × ℚ) × SampleGenerator
  evalEnvProbe : Float3 → Float3
  evalEnvProbePdf : Float3 → ℚ
  getEnvLightSelectionPdf : ℚ
  emissiveEvalPdf : Float3 → Float3 → TriangleHit → ℚ
  getEmissiveLightSelectionPdf : ℚ
  evalMIS : ℚ → ℚ → ℚ
  computeNewRayOrigin : ShadingData → Float3

/-- Modelled from the spec: the hardware shadow-ray dispatch for a ray traced
with `RAY_FLAG_SKIP_CLOSEST_HIT_SHADER | RAY_FLAG_ACCEPT_FIRST_HIT_AND_END_SEARCH`.
The closest-hit shader is skipped, so an occluded ray leaves the payload
unchanged; the miss shader (not present in the sources) sets `visible = true`.
`occluded` abstracts whether the scene blocks the ray. -/
def shadowDispatch (occluded : Bool) (_ray : RayDesc)
    (rayData : ShadowRayData) : ShadowRayData :=
  if occluded then rayData else { rayData with visible := true }

/-- Embedding of `traceShadowRay` (PathTracer.slang:63).  The hardware
`TraceRay` call is the oracle parameter `trace` (any function from ray
descriptor and initial payload to final payload), and the global statistics
counter incremented by `logTraceRay` is threaded explicitly as `counter`.
Returns the visibility result together with the new counter value. -/
def traceShadowRay (trace : RayDesc → ShadowRayData → ShadowRayData)
    (counter : ℕ) (origin : Float3) (dir : Float3) (distance : ℚ)
    (valid : Bool) : Bool × ℕ :=
  let ray : RayDesc :=
    { Origin := origin, Direction := dir, TMin := 0,
      TMax := if valid then distance else 0 }
  let rayData : ShadowRayData := { visible := false }
  let rayData := trace ray rayData
  if !valid then (false, counter)
  else (rayData.visible, counter + 1)

/-- Embedding of `generateShadowRay` (PathTracer.slang:136). -/
def generateShadowRay (pt : PathTracerData) (sd : ShadingData)
    (rayOrigin : Float3) (rayData : ScatterRayData) : ScatterRayData :=
  let res := pt.sampleSceneLights sd rayOrigin rayData.sg
  let ls := res.1
  let valid := ls.Li.anyPos
  { rayData with
    sg := res.2
    shadowRay := float4 ls.rayDir ls.rayDistance
    Lr := if valid then pt.evalBRDFCosine sd ls.dir * ls.Li * rayData.thp
          else Float3.zero }

/-- Embedding of `generateScatterRay` (PathTracer.slang:155).  The two
`assert(!isnan(...))` statements are debug checks with no effect on the
result; they are analysed separately over the IEEE-style domain below. -/
def generateScatterRay (cfg : Config) (pt : PathTracerData) (sd : ShadingData)
    (rayOrigin : Float3) (rayData : ScatterRayData) : ScatterRayData :=
  let rayData := { rayData with origin := rayOrigin }
  let rayData :=
    if cfg.kUseBRDFSampling then
      let res := pt.sampleBRDF sd rayData.sg
      let result := res.1
      { rayData with
        sg := res.2
        direction := result.dir
        thp := rayData.thp * result.thp
        pdf := if cfg.kUseMIS then result.pdf else 0 }
    else
      let u := pt.sampleNext2D rayData.sg
      let hemi := pt.sampleHemisphereCosine sd u.1
      let dir := hemi.1
      let NdotL := Float3.dot sd.N dir
      let pdf : ℚ := if min sd.NdotV NdotL < cfg.kMinCosTheta then 0 else hemi.2
      { rayData with
        sg := u.2
        direction := dir
        thp := rayData.thp * (pt.evalBRDF sd dir * M_PI)
        pdf := if cfg.kUseMIS then pdf else 0 }
  let rayData := if cfg.kUseMIS then { rayData with normal := sd.N } else rayData
  if rayData.thp.allZero then { rayData with terminated := true } else rayData

/-- Embedding of `handleMiss` (PathTracer.slang:204). -/
def handleMiss (cfg : Config) (pt : PathTracerData)
    (rayData : ScatterRayData) : ScatterRayData :=
  let rayData := { rayData with terminated := true }
  if cfg.kUseEnvLight && cfg.kUseMIS then
    let dir := rayData.direction
    let lightPdf := pt.evalEnvProbePdf dir * pt.getEnvLightSelectionPdf
    let misWeight := pt.evalMIS rayData.pdf lightPdf
    let Le := pt.evalEnvProbe dir * misWeight
    { rayData with Le := rayData.thp * Le }
  else rayData

/-- The first block of `handleHit` (PathTracer.slang:237-261): emissive
resolution with MIS weighting.  Split out as a named stage of `handleHit`
for the statements below; `handleHit` is its composition with the
indirect-illumination block, exactly as in the source. -/
def handleHitEmissive (cfg : Config) (pt : PathTracerData) (sd : ShadingData)
    (hit : TriangleHit) (rayData : ScatterRayData) : ScatterRayData :=
  let computeEmissive := cfg.kUseEmissiveLights &&
    (!cfg.kUseEmissiveSampler || (cfg.kUseEmissiveSampler && cfg.kUseMIS))
  if computeEmissive && sd.emissive.anyPos then
    let misWeight : ℚ :=
      if cfg.kUseEmissiveSampler && cfg.kUseMIS then
        let lightPdf := pt.emissiveEvalPdf rayData.origin rayData.normal hit *
          pt.getEmissiveLightSelectionPdf
        pt.evalMIS rayData.pdf lightPdf
      else 1
    { rayData with Le := rayData.thp * sd.emissive * misWeight }
  else rayData

/-- Embedding of `handleHit` (PathTracer.slang:235): emissive resolution,
then — when indirect illumination is enabled and the bounce bound not yet
reached — shadow-ray and scatter-ray generation and the path-length
increment. -/
def handleHit (cfg : Config) (pt : PathTracerData) (sd : ShadingData)
    (hit : TriangleHit) (computeIndirect : Bool)
    (rayData : ScatterRayData) : ScatterRayData :=
  let rayData := handleHitEmissive cfg pt sd hit rayData
  if computeIndirect && rayData.pathLength < cfg.kMaxBounces then
    let rayOrigin := pt.computeNewRayOrigin sd
    let rayData := generateShadowRay pt sd rayOrigin rayData
    let rayData := generateScatterRay cfg pt sd rayOrigin rayData
    { rayData with pathLength := rayData.pathLength + 1 }
  else rayData

/-!
IEEE-style scalar model for the NaN assertions of `generateScatterRay`.
`FV` has NaN, the two infinities, and finite values (exact rationals in
place of the finite floats).  Multiplication follows IEEE 754: NaN is
absorbing, and `0 × ∞ = NaN`.  Comparisons are IEEE: every comparison with
NaN is false.  `min` is the HLSL `a < b ? a : b` form, and `isnan` is the
intrinsic of the same name.
-/

/-- An IEEE-style scalar value: NaN, plus or minus infinity, or a finite
value. -/
inductive FV where
  | nan : FV
  | inf : FV
  | ninf : FV
  | fin : ℚ → FV
deriving DecidableEq, Repr

/-- The `isnan` intrinsic. -/
def FV.isNaN : FV → Bool
  | .nan => true
  | _ => false

/-- Finiteness of an IEEE-style value. -/
def FV.isFinite : FV → Bool
  | .fin _ => true
  | _ => false

/-- IEEE multiplication: NaN absorbs, `0 × ∞ = NaN`, signs multiply. -/
def FV.mul : FV → FV → FV
  | .nan, _ => .nan
  | _, .nan => .nan
  | .inf, .inf => .inf
  | .inf, .ninf => .ninf
  | .ninf, .inf => .ninf
  | .ninf, .ninf => .inf
  | .inf, .fin q => if 0 < q then .inf else if q < 0 then .ninf else .nan
  | .fin q, .inf => if 0 < q then .inf else if q < 0 then .ninf else .nan
  | .ninf, .fin q => if 0 < q then .ninf else if q < 0 then .inf else .nan
  | .fin q, .ninf => if 0 < q then .ninf else if q < 0 then .inf else .nan
  | .fin a, .fin b => .fin (a * b)

/-- IEEE addition (needed for `dot`): NaN absorbs, `∞ + (-∞) = NaN`. -/
def FV.add : FV → FV → FV
  | .nan, _ => .nan
  | _, .nan => .nan
  | .inf, .ninf => .nan
  | .ninf, .inf => .nan
  | .inf, _ => .inf
  | _, .inf => .inf
  | .ninf, _ => .ninf
  | _, .ninf => .ninf
  | .fin a, .fin b => .fin (a + b)

/-- IEEE less-than: false whenever an operand is NaN. -/
def FV.lt : FV → FV → Bool
  | .nan, _ => false
  | _, .nan => false
  | .inf, _ => false
  | .ninf, .ninf => false
  | .ninf, _ => true
  | .fin _, .inf => true
  | .fin _, .ninf => false
  | .fin a, .fin b => decide (a < b)

/-- The HLSL `min`, in its `a < b ? a : b` hardware form. -/
def FV.fmin (a b : FV) : FV := if FV.lt a b then a else b

/-- IEEE equality test against zero (`v == 0.f`): false for NaN and the
infinities. -/
def FV.eqZero : FV → Bool
  | .fin q => decide (q = 0)
  | _ => false

/-- The `float3` type over IEEE-style scalars. -/
structure Float3F where
  x : FV
  y : FV
  z : FV
deriving DecidableEq, Repr

/-- Componentwise product on `Float3F`. -/
def Float3F.mul (a b : Float3F) : Float3F :=
  ⟨FV.mul a.x b.x, FV.mul a.y b.y, FV.mul a.z b.z⟩

/-- Vector-times-scalar product on `Float3F`. -/
def Float3F.smul (v : Float3F) (s : FV) : Float3F :=
  ⟨FV.mul v.x s, FV.mul v.y s, FV.mul v.z s⟩

/-- The `dot` intrinsic on `Float3F`. -/
def Float3F.dotF (a b : Float3F) : FV :=
  FV.add (FV.add (FV.mul a.x b.x) (FV.mul a.y b.y)) (FV.mul a.z b.z)

/-- The reduction `all(v == 0.f)` on a `Float3F`. -/
def Float3F.allZero (v : Float3F) : Bool :=
  v.x.eqZero && v.y.eqZero && v.z.eqZero

/-- The reduction `any(isnan(v))` on a `Float3F`. -/
def Float3F.anyNaN (v : Float3F) : Bool :=
  v.x.isNaN || v.y.isNaN || v.z.isNaN

/-- All three components finite. -/
def Float3F.allFinite (v : Float3F) : Bool :=
  v.x.isFinite && v.y.isFinite && v.z.isFinite

/-- The constant `M_PI` as an IEEE-style value. -/
def M_PI_F : FV := .fin M_PI

/-- The fields of `ShadingData` read by `generateScatterRay`, over IEEE-style
scalars. -/
structure ShadingDataF where
  N : Float3F
  NdotV : FV
deriving DecidableEq, Repr

/-- The fields of the scatter-ray payload read or written by
`generateScatterRay`, over IEEE-style scalars. -/
structure ScatterRayDataF where
  origin : Float3F
  direction : Float3F
  thp : Float3F
  pdf : FV
  normal : Float3F
  terminated : Bool
  sg : SampleGenerator
deriving DecidableEq, Repr

/-- The `sampleBRDF` result record over IEEE-style scalars. -/
structure BRDFSampleF where
  dir : Float3F
  thp : Float3F
  pdf : FV
deriving DecidableEq, Repr

/-- The collaborator functions `generateScatterRay` calls, over IEEE-style
scalars. -/
structure PathTracerDataF where
  sampleBRDF : ShadingDataF → SampleGenerator → BRDFSampleF × SampleGenerator
  evalBRDF : ShadingDataF → Float3F → Float3F
  sampleHemisphereCosine : ShadingDataF → FV × FV → Float3F × FV
  sampleNext2D : SampleGenerator → (FV × FV) × SampleGenerator

/-- Embedding of `generateScatterRay` (PathTracer.slang:155) over the
IEEE-style scalar domain, for reasoning about the two
`assert(!isnan(...))` statements at lines 188-189. -/
def generateScatterRayF (cfg : Config) (pt : PathTracerDataF)
    (sd : ShadingDataF) (rayOrigin : Float3F)
    (rayData : ScatterRayDataF) : ScatterRayDataF :=
  let rayData := { rayData with origin := rayOrigin }
  let rayData :=
    if cfg.kUseBRDFSampling then
      let res := pt.sampleBRDF sd rayData.sg
      let result := res.1
      { rayData with
        sg := res.2
        direction := result.dir
        thp := rayData.thp.mul result.thp
        pdf := if cfg.kUseMIS then result.pdf else .fin 0 }
    else
      let u := pt.sampleNext2D rayData.sg
      let hemi := pt.sampleHemisphereCosine sd u.1
      let dir := hemi.1
      let NdotL := Float3F.dotF sd.N dir
      let pdf : FV :=
        if FV.lt (FV.fmin sd.NdotV NdotL) (.fin cfg.kMinCosTheta) then .fin 0
        else hemi.2
      { rayData with
        sg := u.2
        direction := dir
        thp := rayData.thp.mul ((pt.evalBRDF sd dir).smul M_PI_F)
        pdf := if cfg.kUseMIS then pdf else .fin 0 }
  let rayData := if cfg.kUseMIS then { rayData with normal := sd.N } else rayData
  if rayData.thp.allZero then { rayData with terminated := true } else rayData

/-!
Concrete instances, used to evaluate the embedded operations on closed
inputs in the witness theorems below.
-/

/-- A concrete sample-generator state. -/
def sgC : SampleGenerator := (0 : ℕ)

/-- A concrete triangle-hit token. -/
def hitC : TriangleHit := (0 : ℕ)

/-- A concrete shading datum: normal `+z`, unit view cosine, white emission. -/
def sdC : ShadingData := ⟨⟨0, 0, 1⟩, 1, ⟨1, 1, 1⟩⟩

/-- A concrete shading datum with view cosine 0 (grazing view). -/
def sdG : ShadingData := ⟨⟨0, 0, 1⟩, 0, ⟨1, 1, 1⟩⟩

/-- A concrete collaborator assignment: unit radiances, balance-heuristic
MIS, hemisphere sample straight up with pdf `1/2`. -/
def ptC : PathTracerData where
  sampleSceneLights := fun _ _ sg => (⟨⟨0, 0, 1⟩, ⟨0, 0, 1⟩, 5, ⟨1, 1, 1⟩⟩, sg)
  evalBRDFCosine := fun _ _ => ⟨1, 1, 1⟩
  sampleBRDF := fun _ sg => (⟨⟨0, 0, 1⟩, ⟨1, 1, 1⟩, 1⟩, sg)
  evalBRDF := fun _ _ => ⟨1, 1, 1⟩
  sampleHemisphereCosine := fun _ _ => (⟨0, 0, 1⟩, 1/2)
  sampleNext2D := fun sg => ((0, 0), sg)
  evalEnvProbe := fun _ => ⟨1, 1, 1⟩
  evalEnvProbePdf := fun _ => 1
  getEnvLightSelectionPdf := 1
  emissiveEvalPdf := fun _ _ _ => 1
  getEmissiveLightSelectionPdf := 1
  evalMIS := fun a b => a / (a + b)
  computeNewRayOrigin := fun _ => ⟨0, 0, 0⟩

/-- The collaborators of `ptC` with a degenerate BRDF sample of zero
throughput. -/
def ptZ : PathTracerData :=
  { ptC with sampleBRDF := fun _ sg => (⟨⟨0, 0, 1⟩, ⟨0, 0, 0⟩, 1⟩, sg) }

/-- A concrete configuration with every feature enabled. -/
def cfgC : Config where
  kUseBRDFSampling := true
  kUseMIS := true
  kUseEnvLight := true
  kUseEmissiveLights := true
  kUseEmissiveSampler := true
  kMaxBounces := 3
  kMinCosTheta := 1/1000

/-- The configuration `cfgC` with the cosine-hemisphere fallback selected. -/
def cfgH : Config := { cfgC with kUseBRDFSampling := false }

/-- A concrete live payload: unit throughput, not terminated. -/
def rdC : ScatterRayData where
  origin := ⟨0, 0, 0⟩
  direction := ⟨0, 0, 1⟩
  thp := ⟨1, 1, 1⟩
  Le := ⟨0, 0, 0⟩
  pdf := 1
  normal := ⟨0, 0, 1⟩
  pathLength := 0
  shadowRay := ⟨0, 0, 0, 0⟩
  Lr := ⟨0, 0, 0⟩
  terminated := false
  sg := sgC

/-- The payload `rdC` with the termination flag already set. -/
def rdT : ScatterRayData := { rdC with terminated := true }

/-- A concrete all-finite `Float3F` vector. -/
def zeroF : Float3F := ⟨.fin 0, .fin 0, .fin 0⟩

/-- A concrete IEEE-style shading datum: normal `+z`, unit view cosine. -/
def sdF : ShadingDataF := ⟨⟨.fin 0, .fin 0, .fin 1⟩, .fin 1⟩

/-- A concrete IEEE-style collaborator assignment whose outputs are all
finite (in particular non-NaN). -/
def ptF : PathTracerDataF where
  sampleBRDF := fun _ sg =>
    (⟨⟨.fin 0, .fin 0, .fin 1⟩, ⟨.fin 1, .fin 1, .fin 1⟩, .fin 1⟩, sg)
  evalBRDF := fun _ _ => ⟨.fin 1, .fin 1, .fin 1⟩
  sampleHemisphereCosine := fun _ _ => (⟨.fin 0, .fin 0, .fin 1⟩, .fin (1/2))
  sampleNext2D := fun sg => ((.fin 0, .fin 0), sg)

/-- A concrete IEEE-style payload with all-finite fields. -/
def rdF : ScatterRayDataF where
  origin := zeroF
  direction := ⟨.fin 0, .fin 0, .fin 1⟩
  thp := ⟨.fin 1, .fin 1, .fin 1⟩
  pdf := .fin 1
  normal := ⟨.fin 0, .fin 0, .fin 1⟩
  terminated := false
  sg := sgC

/-- The payload `rdF` with a NaN in the first throughput channel. -/
def rdN : ScatterRayDataF := { rdF with thp := ⟨.nan, .fin 1, .fin 1⟩ }

/-!
Helper lemmas: which payload fields each operation leaves unchanged, and
closed forms for the fields it writes.
-/

/-- Unfolding lemma for the componentwise vector product. -/
lemma Float3.mul_def (a b : Float3) :
    a * b = ⟨a.x * b.x, a.y * b.y, a.z * b.z⟩ := rfl

/-- Unfolding lemma for the vector-times-scalar product. -/
lemma Float3.smul_def (v : Float3) (s : ℚ) :
    v * s = ⟨v.x * s, v.y * s, v.z * s⟩ := rfl

/-- Multiplying a vector by the scalar 1 is the identity. -/
lemma Float3.hmul_one (v : Float3) : v * (1 : ℚ) = v := by
  show Float3.mk (v.x * 1) (v.y * 1) (v.z * 1) = v
  simp

/-- `generateShadowRay` leaves `Le` unchanged. -/
lemma generateShadowRay_Le (pt : PathTracerData) (sd : ShadingData)
    (ro : Float3) (rd : ScatterRayData) :
    (generateShadowRay pt sd ro rd).Le = rd.Le := rfl

/-- `generateShadowRay` leaves the throughput unchanged. -/
lemma generateShadowRay_thp (pt : PathTracerData) (sd : ShadingData)
    (ro : Float3) (rd : ScatterRayData) :
    (generateShadowRay pt sd ro rd).thp = rd.thp := rfl

/-- `generateShadowRay` leaves the termination flag unchanged. -/
lemma generateShadowRay_terminated (pt : PathTracerData) (sd : ShadingData)
    (ro : Float3) (rd : ScatterRayData) :
    (generateShadowRay pt sd ro rd).terminated = rd.terminated := rfl

/-- `generateShadowRay` leaves the path length unchanged. -/
lemma generateShadowRay_pathLength (pt : PathTracerData) (sd : ShadingData)
    (ro : Float3) (rd : ScatterRayData) :
    (generateShadowRay pt sd ro rd).pathLength = rd.pathLength := rfl

/-- The `Lr` contribution written by `generateShadowRay`. -/
lemma generateShadowRay_Lr (pt : PathTracerData) (sd : ShadingData)
    (ro : Float3) (rd : ScatterRayData) :
    (generateShadowRay pt sd ro rd).Lr =
      (if ((pt.sampleSceneLights sd ro rd.sg).1.Li).anyPos then
        pt.evalBRDFCosine sd (pt.sampleSceneLights sd ro rd.sg).1.dir *
          (pt.sampleSceneLights sd ro rd.sg).1.Li * rd.thp
      else Float3.zero) := rfl

/-- `generateScatterRay` leaves `Le` unchanged. -/
lemma generateScatterRay_Le (cfg : Config) (pt : PathTracerData)
    (sd : ShadingData) (ro : Float3) (rd : ScatterRayData) :
    (generateScatterRay cfg pt sd ro rd).Le = rd.Le := by
  unfold generateScatterRay
  dsimp only
  repeat' split
  all_goals rfl

/-- `generateScatterRay` leaves `Lr` unchanged. -/
lemma generateScatterRay_Lr (cfg : Config) (pt : PathTracerData)
    (sd : ShadingData) (ro : Float3) (rd : ScatterRayData) :
    (generateScatterRay cfg pt sd ro rd).Lr = rd.Lr := by
  unfold generateScatterRay
  dsimp only
  repeat' split
  all_goals rfl

/-- `generateScatterRay` leaves the shadow-ray descriptor unchanged. -/
lemma generateScatterRay_shadowRay (cfg : Config) (pt : PathTracerData)
    (sd : ShadingData) (ro : Float3) (rd : ScatterRayData) :
    (generateScatterRay cfg pt sd ro rd).shadowRay = rd.shadowRay := by
  unfold generateScatterRay
  dsimp only
  repeat' split
  all_goals rfl

/-- `generateScatterRay` leaves the path length unchanged. -/
lemma generateScatterRay_pathLength (cfg : Config) (pt : PathTracerData)
    (sd : ShadingData) (ro : Float3) (rd : ScatterRayData) :
    (generateScatterRay cfg pt sd ro rd).pathLength = rd.pathLength := by
  unfold generateScatterRay
  dsimp only
  repeat' split
  all_goals rfl

/-- The throughput update performed by `generateScatterRay`: multiplication
by the BRDF sample's weight, or by `evalBRDF × π` in the cosine fallback. -/
lemma generateScatterRay_thp (cfg : Config) (pt : PathTracerData)
    (sd : ShadingData) (ro : Float3) (rd : ScatterRayData) :
    (generateScatterRay cfg pt sd ro rd).thp =
      (if cfg.kUseBRDFSampling then rd.thp * (pt.sampleBRDF sd rd.sg).1.thp
       else rd.thp *
         (pt.evalBRDF sd (pt.sampleHemisphereCosine sd (pt.sampleNext2D rd.sg).1).1
           * M_PI)) := by
  unfold generateScatterRay
  dsimp only
  repeat' split
  all_goals simp_all

/-- The pdf stored by `generateScatterRay`: the sampled pdf when MIS is
enabled (zeroed below the cosine threshold in the fallback branch), and `0`
when MIS is disabled. -/
lemma generateScatterRay_pdf (cfg : Config) (pt : PathTracerData)
    (sd : ShadingData) (ro : Float3) (rd : ScatterRayData) :
    (generateScatterRay cfg pt sd ro rd).pdf =
      (if cfg.kUseMIS then
        (if cfg.kUseBRDFSampling then (pt.sampleBRDF sd rd.sg).1.pdf
         else
           (if min sd.NdotV
               (sd.N.dot (pt.sampleHemisphereCosine sd (pt.sampleNext2D rd.sg).1).1)
               < cfg.kMinCosTheta then 0
            else (pt.sampleHemisphereCosine sd (pt.sampleNext2D rd.sg).1).2))
       else 0) := by
  unfold generateScatterRay
  dsimp only
  repeat' split
  all_goals simp_all

/-- The shading normal is stored by `generateScatterRay` exactly when MIS is
enabled. -/
lemma generateScatterRay_normal (cfg : Config) (pt : PathTracerData)
    (sd : ShadingData) (ro : Float3) (rd : ScatterRayData) :
    (generateScatterRay cfg pt sd ro rd).normal =
      (if cfg.kUseMIS then sd.N else rd.normal) := by
  unfold generateScatterRay
  dsimp only
  repeat' split
  all_goals simp_all

/-- The termination flag after `generateScatterRay`: set when the updated
throughput is all-zero, otherwise carried over. -/
lemma generateScatterRay_terminated (cfg : Config) (pt : PathTracerData)
    (sd : ShadingData) (ro : Float3) (rd : ScatterRayData) :
    (generateScatterRay cfg pt sd ro rd).terminated =
      (if (generateScatterRay cfg pt sd ro rd).thp.allZero then true
       else rd.terminated) := by
  unfold generateScatterRay
  dsimp only
  repeat' split
  all_goals simp_all

/-- `handleHitEmissive` writes only the `Le` field. -/
lemma handleHitEmissive_shape (cfg : Config) (pt : PathTracerData)
    (sd : ShadingData) (hit : TriangleHit) (rd : ScatterRayData) :
    handleHitEmissive cfg pt sd hit rd =
      { rd with Le := (handleHitEmissive cfg pt sd hit rd).Le } := by
  unfold handleHitEmissive
  dsimp only
  repeat' split
  all_goals rfl

/-- The `Le` written by `handleHitEmissive`. -/
lemma handleHitEmissive_Le (cfg : Config) (pt : PathTracerData)
    (sd : ShadingData) (hit : TriangleHit) (rd : ScatterRayData) :
    (handleHitEmissive cfg pt sd hit rd).Le =
      (if (cfg.kUseEmissiveLights &&
            (!cfg.kUseEmissiveSampler || (cfg.kUseEmissiveSampler && cfg.kUseMIS)))
          && sd.emissive.anyPos then
        (if cfg.kUseEmissiveSampler && cfg.kUseMIS then
          rd.thp * sd.emissive *
            pt.evalMIS rd.pdf (pt.emissiveEvalPdf rd.origin rd.normal hit *
              pt.getEmissiveLightSelectionPdf)
         else rd.thp * sd.emissive)
       else rd.Le) := by
  unfold handleHitEmissive
  dsimp only
  repeat' split
  all_goals simp_all [Float3.hmul_one]

/-- `handleMiss` always sets the termination flag. -/
lemma handleMiss_terminated (cfg : Config) (pt : PathTracerData)
    (rd : ScatterRayData) : (handleMiss cfg pt rd).terminated = true := by
  unfold handleMiss
  dsimp only
  repeat' split
  all_goals rfl

/-- The `Le` written by `handleMiss`. -/
lemma handleMiss_Le (cfg : Config) (pt : PathTracerData) (rd : ScatterRayData) :
    (handleMiss cfg pt rd).Le =
      (if cfg.kUseEnvLight && cfg.kUseMIS then
        rd.thp * (pt.evalEnvProbe rd.direction *
          pt.evalMIS rd.pdf
            (pt.evalEnvProbePdf rd.direction * pt.getEnvLightSelectionPdf))
       else rd.Le) := by
  unfold handleMiss
  dsimp only
  repeat' split
  all_goals rfl

/-- C1: in `handleHit`, the emitted-radiance field `Le` is computed exactly
when emissive lights are enabled AND (no emissive sampler is configured OR
both emissive sampler and MIS are enabled) AND the surface emission is
positive in some channel; when the emissive-sampler-and-MIS case applies the
contribution is MIS-weighted, and otherwise the weight is exactly 1, so `Le`
equals throughput times surface emission; in all other cases `Le` is left
unchanged. -/
theorem handleHit_emissive_resolution (cfg : Config) (pt : PathTracerData)
    (sd : ShadingData) (hit : TriangleHit) (ci : Bool) (rd : ScatterRayData) :
    (handleHit cfg pt sd hit ci rd).Le =
      (if (cfg.kUseEmissiveLights &&
            (!cfg.kUseEmissiveSampler || (cfg.kUseEmissiveSampler && cfg.kUseMIS)))
          && sd.emissive.anyPos then
        (if cfg.kUseEmissiveSampler && cfg.kUseMIS then
          rd.thp * sd.emissive *
            pt.evalMIS rd.pdf (pt.emissiveEvalPdf rd.origin rd.normal hit *
              pt.getEmissiveLightSelectionPdf)
         else rd.thp * sd.emissive)
       else rd.Le) := by
  rw [← handleHitEmissive_Le cfg pt sd hit rd]
  unfold handleHit
  dsimp only
  split
  · show (generateScatterRay _ _ _ _ _).Le = _
    rw [generateScatterRay_Le, generateShadowRay_Le]
  · rfl

/-- C2: `handleMiss` always sets the termination flag, and writes the
environment contribution (throughput times environment radiance times the
MIS weight combining the stored BRDF pdf with the environment pdf scaled by
the light-selection pdf) exactly when both the environment light and MIS are
enabled, leaving `Le` unchanged otherwise. -/
theorem handleMiss_spec (cfg : Config) (pt : PathTracerData)
    (rd : ScatterRayData) :
    (handleMiss cfg pt rd).terminated = true ∧
    (handleMiss cfg pt rd).Le =
      (if cfg.kUseEnvLight && cfg.kUseMIS then
        rd.thp * (pt.evalEnvProbe rd.direction *
          pt.evalMIS rd.pdf
            (pt.evalEnvProbePdf rd.direction * pt.getEnvLightSelectionPdf))
       else rd.Le) :=
  ⟨handleMiss_terminated cfg pt rd, handleMiss_Le cfg pt rd⟩

/-- C3: a shadow ray with `valid = false` returns not-visible and leaves the
trace counter unchanged, for every behavior of the dispatch; with
`valid = true` the ray is built with `tMax = distance`, the counter is
incremented, and the result is the visibility reported by the payload, which
starts not-visible and is set visible exactly by a miss
(`shadowDispatch` with `occluded = false`). -/
theorem traceShadowRay_spec
    (trace : RayDesc → ShadowRayData → ShadowRayData) (counter : ℕ)
    (origin : Float3) (dir : Float3) (distance : ℚ) :
    traceShadowRay trace counter origin dir distance false = (false, counter) ∧
    traceShadowRay trace counter origin dir distance true =
      ((trace { Origin := origin, Direction := dir, TMin := 0, TMax := distance }
          { visible := false }).visible, counter + 1) ∧
    ∀ occluded : Bool,
      traceShadowRay (shadowDispatch occluded) counter origin dir distance true =
        (!occluded, counter + 1) := by
  refine ⟨rfl, rfl, fun occluded => ?_⟩
  cases occluded <;> rfl

/-- The termination flag set by `generateScatterRay` is monotone: a
terminated payload stays terminated. -/
lemma generateScatterRay_terminated_mono (cfg : Config) (pt : PathTracerData)
    (sd : ShadingData) (ro : Float3) (rd : ScatterRayData)
    (h : rd.terminated = true) :
    (generateScatterRay cfg pt sd ro rd).terminated = true := by
  rw [generateScatterRay_terminated]
  split
  · rfl
  · exact h

/-- C4: after `generateScatterRay`, in both branches, the payload's pdf
equals the sampled pdf when MIS is enabled and 0 when MIS is disabled, and
the shading normal is written to the payload exactly when MIS is enabled. -/
theorem generateScatterRay_mis_pdf_normal (cfg : Config) (pt : PathTracerData)
    (sd : ShadingData) (ro : Float3) (rd : ScatterRayData) :
    (generateScatterRay cfg pt sd ro rd).pdf =
      (if cfg.kUseMIS then
        (if cfg.kUseBRDFSampling then (pt.sampleBRDF sd rd.sg).1.pdf
         else
           (if min sd.NdotV
               (sd.N.dot (pt.sampleHemisphereCosine sd (pt.sampleNext2D rd.sg).1).1)
               < cfg.kMinCosTheta then 0
            else (pt.sampleHemisphereCosine sd (pt.sampleNext2D rd.sg).1).2))
       else 0) ∧
    (generateScatterRay cfg pt sd ro rd).normal =
      (if cfg.kUseMIS then sd.N else rd.normal) :=
  ⟨generateScatterRay_pdf cfg pt sd ro rd, generateScatterRay_normal cfg pt sd ro rd⟩

/-- C5: in the cosine-weighted hemisphere fallback branch of
`generateScatterRay`, the throughput is multiplied by
`evalBRDF(sd, dir) × π`, and the stored pdf is 0 whenever
`min(NdotV, NdotL)` falls below `kMinCosTheta`. -/
theorem generateScatterRay_cosine_fallback (cfg : Config) (pt : PathTracerData)
    (sd : ShadingData) (ro : Float3) (rd : ScatterRayData)
    (h : cfg.kUseBRDFSampling = false) :
    (generateScatterRay cfg pt sd ro rd).thp =
      rd.thp *
        (pt.evalBRDF sd (pt.sampleHemisphereCosine sd (pt.sampleNext2D rd.sg).1).1
          * M_PI) ∧
    (min sd.NdotV
        (sd.N.dot (pt.sampleHemisphereCosine sd (pt.sampleNext2D rd.sg).1).1)
        < cfg.kMinCosTheta →
      (generateScatterRay cfg pt sd ro rd).pdf = 0) := by
  constructor
  · rw [generateScatterRay_thp]
    simp [h]
  · intro hlt
    rw [generateScatterRay_pdf]
    simp [h, hlt]

/-- Witness for C5 at a concrete grazing-view input. -/
theorem generateScatterRay_cosine_fallback_witness :
    (generateScatterRay cfgH ptC sdG Float3.zero rdC).thp =
      rdC.thp *
        (ptC.evalBRDF sdG (ptC.sampleHemisphereCosine sdG (ptC.sampleNext2D rdC.sg).1).1
          * M_PI) ∧
    (generateScatterRay cfgH ptC sdG Float3.zero rdC).pdf = 0 :=
  ⟨(generateScatterRay_cosine_fallback cfgH ptC sdG Float3.zero rdC rfl).1,
   (generateScatterRay_cosine_fallback cfgH ptC sdG Float3.zero rdC rfl).2
     (by norm_num [sdG, ptC, rdC, sgC, cfgH, cfgC, Float3.dot, min_def])⟩

/-- C6: if the throughput resulting from `generateScatterRay` is exactly
zero in every channel, the payload's termination flag is set. -/
theorem generateScatterRay_zero_throughput_terminates (cfg : Config)
    (pt : PathTracerData) (sd : ShadingData) (ro : Float3) (rd : ScatterRayData)
    (h : (generateScatterRay cfg pt sd ro rd).thp.allZero = true) :
    (generateScatterRay cfg pt sd ro rd).terminated = true := by
  rw [generateScatterRay_terminated]
  simp [h]

/-- Witness for C6 at a concrete degenerate BRDF sample of zero throughput. -/
theorem generateScatterRay_zero_throughput_terminates_witness :
    (generateScatterRay cfgC ptZ sdC Float3.zero rdC).terminated = true :=
  generateScatterRay_zero_throughput_terminates cfgC ptZ sdC Float3.zero rdC
    (by simp [generateScatterRay, cfgC, ptZ, ptC, sdC, rdC, sgC, Float3.allZero,
      Float3.mul_def])

/-- C7: `handleHit` issues shadow-ray and scatter-ray generation and
increments the path length by exactly one when indirect illumination is
enabled and the path length is strictly below `kMaxBounces`; otherwise only
the emissive `Le` field may change — no rays are generated, the path length
is unchanged, and the termination flag is not touched by `handleHit`
itself. -/
theorem handleHit_indirect_gating (cfg : Config) (pt : PathTracerData)
    (sd : ShadingData) (hit : TriangleHit) (ci : Bool) (rd : ScatterRayData) :
    handleHit cfg pt sd hit ci rd =
      (if ci && rd.pathLength < cfg.kMaxBounces then
        { generateScatterRay cfg pt sd (pt.computeNewRayOrigin sd)
            (generateShadowRay pt sd (pt.computeNewRayOrigin sd)
              (handleHitEmissive cfg pt sd hit rd)) with
          pathLength := rd.pathLength + 1 }
       else { rd with Le := (handleHitEmissive cfg pt sd hit rd).Le }) := by
  have hp : (handleHitEmissive cfg pt sd hit rd).pathLength = rd.pathLength := by
    rw [handleHitEmissive_shape]
  unfold handleHit
  dsimp only
  rw [hp]
  by_cases hB : (ci && decide (rd.pathLength < cfg.kMaxBounces)) = true
  · rw [if_pos hB, if_pos hB]
    rw [generateScatterRay_pathLength, generateShadowRay_pathLength, hp]
  · rw [if_neg hB, if_neg hB]
    exact handleHitEmissive_shape cfg pt sd hit rd

/-- C8: `generateShadowRay` stores into `Lr` the BRDF-cosine-weighted light
radiance times the payload's current throughput when the light sample is
valid and exactly zero otherwise, without modifying the throughput; hence in
`handleHit` the stored `Lr` is weighted by the throughput as it was on
entry, before `generateScatterRay`'s multiplicative update. -/
theorem generateShadowRay_contribution (cfg : Config) (pt : PathTracerData)
    (sd : ShadingData) (hit : TriangleHit) (ci : Bool) (ro : Float3)
    (rd : ScatterRayData) :
    (generateShadowRay pt sd ro rd).Lr =
      (if ((pt.sampleSceneLights sd ro rd.sg).1.Li).anyPos then
        pt.evalBRDFCosine sd (pt.sampleSceneLights sd ro rd.sg).1.dir *
          (pt.sampleSceneLights sd ro rd.sg).1.Li * rd.thp
       else Float3.zero) ∧
    (generateShadowRay pt sd ro rd).thp = rd.thp ∧
    (handleHit cfg pt sd hit ci rd).Lr =
      (if ci && rd.pathLength < cfg.kMaxBounces then
        (if ((pt.sampleSceneLights sd (pt.computeNewRayOrigin sd) rd.sg).1.Li).anyPos then
          pt.evalBRDFCosine sd
              (pt.sampleSceneLights sd (pt.computeNewRayOrigin sd) rd.sg).1.dir *
            (pt.sampleSceneLights sd (pt.computeNewRayOrigin sd) rd.sg).1.Li * rd.thp
         else Float3.zero)
       else rd.Lr) := by
  refine ⟨generateShadowRay_Lr pt sd ro rd, generateShadowRay_thp pt sd ro rd, ?_⟩
  have hsg : (handleHitEmissive cfg pt sd hit rd).sg = rd.sg := by
    rw [handleHitEmissive_shape]
  have hthp : (handleHitEmissive cfg pt sd hit rd).thp = rd.thp := by
    rw [handleHitEmissive_shape]
  have hLr : (handleHitEmissive cfg pt sd hit rd).Lr = rd.Lr := by
    rw [handleHitEmissive_shape]
  have hp : (handleHitEmissive cfg pt sd hit rd).pathLength = rd.pathLength := by
    rw [handleHitEmissive_shape]
  unfold handleHit
  dsimp only
  rw [hp]
  by_cases hB : (ci && decide (rd.pathLength < cfg.kMaxBounces)) = true
  · rw [if_pos hB, if_pos hB]
    show (generateScatterRay _ _ _ _ _).Lr = _
    rw [generateScatterRay_Lr, generateShadowRay_Lr, hsg, hthp]
  · rw [if_neg hB, if_neg hB]
    exact hLr

/-- C10: the termination flag is monotone across the core operations: a
payload terminated on entry stays terminated after `generateShadowRay`,
`generateScatterRay`, `handleMiss` and `handleHit`. -/
theorem terminated_monotone (cfg : Config) (pt : PathTracerData)
    (sd : ShadingData) (hit : TriangleHit) (ci : Bool) (ro : Float3)
    (rd : ScatterRayData) (h : rd.terminated = true) :
    (generateShadowRay pt sd ro rd).terminated = true ∧
    (generateScatterRay cfg pt sd ro rd).terminated = true ∧
    (handleMiss cfg pt rd).terminated = true ∧
    (handleHit cfg pt sd hit ci rd).terminated = true := by
  refine ⟨?_, generateScatterRay_terminated_mono cfg pt sd ro rd h,
    handleMiss_terminated cfg pt rd, ?_⟩
  · rw [generateShadowRay_terminated]
    exact h
  · unfold handleHit
    dsimp only
    split
    · show (generateScatterRay _ _ _ _ _).terminated = true
      apply generateScatterRay_terminated_mono
      rw [generateShadowRay_terminated, handleHitEmissive_shape]
      exact h
    · rw [handleHitEmissive_shape]
      exact h

/-- Witness for C10 at a concrete already-terminated payload. -/
theorem terminated_monotone_witness :
    (generateShadowRay ptC sdC Float3.zero rdT).terminated = true ∧
    (generateScatterRay cfgC ptC sdC Float3.zero rdT).terminated = true ∧
    (handleMiss cfgC ptC rdT).terminated = true ∧
    (handleHit cfgC ptC sdC hitC true rdT).terminated = true :=
  terminated_monotone cfgC ptC sdC hitC true Float3.zero rdT rfl

/-- A finite IEEE-style value is not NaN. -/
lemma FV.isFinite_isNaN {a : FV} (h : a.isFinite = true) : a.isNaN = false := by
  cases a <;> simp_all [FV.isFinite, FV.isNaN]

/-- The IEEE product of finite values is finite. -/
lemma FV.mul_finite {a b : FV} (ha : a.isFinite = true) (hb : b.isFinite = true) :
    (FV.mul a b).isFinite = true := by
  cases a <;> cases b <;> simp_all [FV.isFinite, FV.mul]

/-- The componentwise IEEE product of all-finite vectors is all-finite. -/
lemma Float3F.mulVec_finite {a b : Float3F} (ha : a.allFinite = true)
    (hb : b.allFinite = true) : (a.mul b).allFinite = true := by
  simp only [Float3F.allFinite, Bool.and_eq_true] at *
  exact ⟨⟨FV.mul_finite ha.1.1 hb.1.1, FV.mul_finite ha.1.2 hb.1.2⟩,
    FV.mul_finite ha.2 hb.2⟩

/-- Scaling an all-finite vector by a finite scalar is all-finite. -/
lemma Float3F.smul_finite {v : Float3F} {s : FV} (hv : v.allFinite = true)
    (hs : s.isFinite = true) : (v.smul s).allFinite = true := by
  simp only [Float3F.allFinite, Float3F.smul, Bool.and_eq_true] at *
  exact ⟨⟨FV.mul_finite hv.1.1 hs, FV.mul_finite hv.1.2 hs⟩,
    FV.mul_finite hv.2 hs⟩

/-- An all-finite vector has no NaN component. -/
lemma Float3F.allFinite_anyNaN {v : Float3F} (h : v.allFinite = true) :
    v.anyNaN = false := by
  simp only [Float3F.allFinite, Float3F.anyNaN, Bool.and_eq_true,
    Bool.or_eq_false_iff] at *
  exact ⟨⟨FV.isFinite_isNaN h.1.1, FV.isFinite_isNaN h.1.2⟩,
    FV.isFinite_isNaN h.2⟩

/-- The throughput update of the IEEE-style model of `generateScatterRay`. -/
lemma generateScatterRayF_thp (cfg : Config) (pt : PathTracerDataF)
    (sd : ShadingDataF) (ro : Float3F) (rd : ScatterRayDataF) :
    (generateScatterRayF cfg pt sd ro rd).thp =
      (if cfg.kUseBRDFSampling then rd.thp.mul (pt.sampleBRDF sd rd.sg).1.thp
       else rd.thp.mul
         ((pt.evalBRDF sd
             (pt.sampleHemisphereCosine sd (pt.sampleNext2D rd.sg).1).1).smul
           M_PI_F)) := by
  unfold generateScatterRayF
  dsimp only
  repeat' split
  all_goals simp_all

/-- The pdf written by the IEEE-style model of `generateScatterRay`. -/
lemma generateScatterRayF_pdf (cfg : Config) (pt : PathTracerDataF)
    (sd : ShadingDataF) (ro : Float3F) (rd : ScatterRayDataF) :
    (generateScatterRayF cfg pt sd ro rd).pdf =
      (if cfg.kUseMIS then
        (if cfg.kUseBRDFSampling then (pt.sampleBRDF sd rd.sg).1.pdf
         else
           (if FV.lt
               (FV.fmin sd.NdotV
                 (Float3F.dotF sd.N
                   (pt.sampleHemisphereCosine sd (pt.sampleNext2D rd.sg).1).1))
               (.fin cfg.kMinCosTheta) then .fin 0
            else (pt.sampleHemisphereCosine sd (pt.sampleNext2D rd.sg).1).2))
       else .fin 0) := by
  unfold generateScatterRayF
  dsimp only
  repeat' split
  all_goals simp_all

/-- C9, counterexample: at a concrete input whose external BRDF sampling and
evaluation routines return only finite, non-NaN values, but whose incoming
payload carries a NaN throughput channel, `generateScatterRay` produces a
throughput with a NaN channel — so the claim as stated (which assumes
nothing about the incoming payload) is false. -/
theorem generateScatterRayF_nan_counterexample :
    ((ptF.sampleBRDF sdF rdN.sg).1.thp.anyNaN = false ∧
     (ptF.sampleBRDF sdF rdN.sg).1.pdf.isNaN = false ∧
     (ptF.evalBRDF sdF
       (ptF.sampleHemisphereCosine sdF (ptF.sampleNext2D rdN.sg).1).1).anyNaN
         = false ∧
     (ptF.sampleHemisphereCosine sdF (ptF.sampleNext2D rdN.sg).1).2.isNaN
         = false) ∧
    (generateScatterRayF cfgC ptF sdF zeroF rdN).thp.anyNaN = true :=
  ⟨⟨rfl, rfl, rfl, rfl⟩, rfl⟩

/-- C9, amended: if the incoming payload's throughput is finite in every
channel and the external BRDF sampling and evaluation routines return finite
throughput and BRDF values and non-NaN pdfs, then after `generateScatterRay`
the throughput contains no NaN in any channel and the pdf is not NaN — the
function's two assertions hold. -/
theorem generateScatterRayF_no_nan (cfg : Config) (pt : PathTracerDataF)
    (sd : ShadingDataF) (ro : Float3F) (rd : ScatterRayDataF)
    (hthp : rd.thp.allFinite = true)
    (hbrdfS : (pt.sampleBRDF sd rd.sg).1.thp.allFinite = true)
    (hbrdfP : (pt.sampleBRDF sd rd.sg).1.pdf.isNaN = false)
    (hevalB : (pt.evalBRDF sd
      (pt.sampleHemisphereCosine sd (pt.sampleNext2D rd.sg).1).1).allFinite
        = true)
    (hhemi : (pt.sampleHemisphereCosine sd (pt.sampleNext2D rd.sg).1).2.isNaN
        = false) :
    (generateScatterRayF cfg pt sd ro rd).thp.anyNaN = false ∧
    (generateScatterRayF cfg pt sd ro rd).pdf.isNaN = false := by
  constructor
  · rw [generateScatterRayF_thp]
    split
    · exact Float3F.allFinite_anyNaN (Float3F.mulVec_finite hthp hbrdfS)
    · exact Float3F.allFinite_anyNaN
        (Float3F.mulVec_finite hthp (Float3F.smul_finite hevalB rfl))
  · rw [generateScatterRayF_pdf]
    split
    · split
      · exact hbrdfP
      · split
        · rfl
        · exact hhemi
    · rfl

/-- Witness for the amended C9 at a concrete all-finite input. -/
theorem generateScatterRayF_no_nan_witness :
    (generateScatterRayF cfgC ptF sdF zeroF rdF).thp.anyNaN = false ∧
    (generateScatterRayF cfgC ptF sdF zeroF rdF).pdf.isNaN = false :=
  generateScatterRayF_no_nan cfgC ptF sdF zeroF rdF rfl rfl rfl rfl rfl
